import Mathlib

/-!
Shallow embedding of the settlement and member-mutation subsystem of the
opencollective-api repository, covering `server/models/TransactionSettlement.ts`
and `server/graphql/v2/mutation/MemberMutations.js`.

Database tables are lists of row structures. Soft deletion (sequelize
`paranoid: true` on `TransactionSettlements`) is a `deletedAt : Option Nat`
field, where `none` means the row is live. A database transaction that can
fail is a function into `Except`: an `.error` result means the transaction
was rolled back (or the mutation threw before writing), so the caller keeps
the previous state and no change is committed.
-/

/-- Values of the `TransactionSettlementStatus` TS enum. At runtime these are
plain strings (the JS compares them with `===`), and the `status` column is a
string column constrained to the enum, so statuses are modelled as `String`. -/
def TransactionSettlementStatus.OWED : String := "OWED"

/-- The `INVOICED` value of `TransactionSettlementStatus`. -/
def TransactionSettlementStatus.INVOICED : String := "INVOICED"

/-- The `SETTLED` value of `TransactionSettlementStatus`. -/
def TransactionSettlementStatus.SETTLED : String := "SETTLED"

/-- A row of the `TransactionSettlements` table (model `TransactionSettlement`,
`paranoid: true`). `kind` reuses the `Transactions` kind enum and is a string. -/
structure SettlementRow where
  id : Nat
  TransactionGroup : String
  kind : String
  status : String
  ExpenseId : Option Nat
  deletedAt : Option Nat
deriving DecidableEq

/-- A row of the `Transactions` table, restricted to the columns the queries
under consideration read. `HostCollectiveId` and `CollectiveId` record which
host the transaction belongs to (needed to state host-ownership properties).
`settlementStatus` is the virtual column written by
`attachStatusesToTransactions` into `dataValues`: `none` means the field is
absent, `some none` means it was set to SQL NULL / JS null. -/
structure TransactionRow where
  id : Nat
  type : String
  CollectiveId : Nat
  HostCollectiveId : Nat
  TransactionGroup : String
  kind : String
  isDebt : Bool
  deletedAt : Option Nat
  settlementStatus : Option (Option String) := none
deriving DecidableEq

/-- A row of the `Collectives` table (only the primary key matters here; the
`slug` column stands for the remaining payload returned by `SELECT c.*`). -/
structure CollectiveRow where
  id : Nat
  slug : String
deriving DecidableEq

/-- A row of the `Expenses` table, restricted to what the INVOICED branch of
`revertSettlementForRefund` touches. -/
structure ExpenseRow where
  id : Nat
  amount : Int
  deletedAt : Option Nat
deriving DecidableEq

/-- A row of the `ExpenseItems` table. -/
structure ExpenseItemRow where
  id : Nat
  ExpenseId : Nat
  amount : Int
  deletedAt : Option Nat
deriving DecidableEq

/-- The mutable state touched by the settlement model: the settlements table,
the expenses and expense-items tables, the auto-increment counter for new
settlement rows, and the current clock used for `deletedAt` timestamps. -/
structure LedgerState where
  settlements : List SettlementRow
  expenses : List ExpenseRow
  expenseItems : List ExpenseItemRow
  nextId : Nat
  now : Nat
deriving DecidableEq

/-- The static method `TransactionSettlement.createForTransaction(transaction, status = OWED)`:
inserts one settlement row copying `TransactionGroup` and `kind` from the
transaction, with the given status (the JS parameter defaults to OWED, which
the caller in `revertSettlementForRefund` uses) and no `ExpenseId`, and
returns it. -/
def createForTransaction (st : LedgerState) (transaction : TransactionRow)
    (status : String) : LedgerState × SettlementRow :=
  let row : SettlementRow :=
    { id := st.nextId
      TransactionGroup := transaction.TransactionGroup
      kind := transaction.kind
      status := status
      ExpenseId := none
      deletedAt := none }
  ({ st with settlements := st.settlements ++ [row], nextId := st.nextId + 1 }, row)

/-- The instance method `TransactionSettlement#revertSettlementForRefund(refundTransaction)`.
`OWED`: `this.destroy()` on the paranoid model soft-deletes the row.
`INVOICED`: inside `sequelize.transaction`, loads the linked expense with its
items, then looks the item up with `expense.items.find(item => false)` (the
TODO placeholder predicate in the source, which rejects every item); when the
lookup yields nothing, reading `item.amount` raises a TypeError and the SQL
transaction is rolled back, which the `.error` result models. When the
`ExpenseId` association resolves to no live expense, `expense.items` likewise
raises a TypeError.
`SETTLED`: `createForTransaction(refundTransaction)`.
Any other status: throws an Error naming the status before any write. -/
def revertSettlementForRefund (st : LedgerState) (self : SettlementRow)
    (refundTransaction : TransactionRow) : Except String LedgerState :=
  if self.status = TransactionSettlementStatus.OWED then
    Except.ok { st with settlements := st.settlements.map fun s =>
      if s.id = self.id then { s with deletedAt := some st.now } else s }
  else if self.status = TransactionSettlementStatus.INVOICED then
    match st.expenses.find? fun e => self.ExpenseId == some e.id && e.deletedAt == none with
    | none => Except.error "TypeError: expense is null"
    | some expense =>
      let items := st.expenseItems.filter fun i =>
        i.ExpenseId == expense.id && i.deletedAt == none
      match items.find? (fun _ => false) with
      | none => Except.error "TypeError: item is undefined"
      | some item =>
        Except.ok { st with
          expenses := st.expenses.map fun e =>
            if e.id = expense.id then { e with amount := expense.amount - item.amount } else e,
          expenseItems := st.expenseItems.map fun i =>
            if i.id = item.id then { i with deletedAt := some st.now } else i }
  else if self.status = TransactionSettlementStatus.SETTLED then
    Except.ok (createForTransaction st refundTransaction TransactionSettlementStatus.OWED).1
  else
    Except.error ("Unknown settlement status: " ++ self.status)

/-- The SQL of `TransactionSettlement.getAccountsWithOwedSettlements`:
collectives joined with their transactions and the settlements matching the
(TransactionGroup, kind) pair, filtered to live CREDIT debt transactions and
live OWED settlements. `GROUP BY c.id` collapses the join back to one row per
collective; since `id` is the primary key of `Collectives` (the theorem takes
this as a hypothesis), this is a filter over the collectives list. -/
def getAccountsWithOwedSettlements (collectives : List CollectiveRow)
    (transactions : List TransactionRow) (settlements : List SettlementRow) :
    List CollectiveRow :=
  collectives.filter fun c =>
    transactions.any fun t =>
      t.CollectiveId == c.id && t.type == "CREDIT" && t.isDebt &&
        t.deletedAt == none &&
        settlements.any fun ts =>
          t.TransactionGroup == ts.TransactionGroup && t.kind == ts.kind &&
            ts.deletedAt == none && ts.status == TransactionSettlementStatus.OWED

/-- The SQL of `TransactionSettlement.getHostDebts(hostId, settlementStatus)`:
an inner join of live CREDIT debt transactions with live settlements on the
(TransactionGroup, kind) pair, each result row carrying the transaction and
the settlement status (`SELECT t.*, ts.status as settlementStatus`); the
status filter is appended only when `settlementStatus` is supplied. Note that
the query text never references `hostId`: the parameter is passed in
`replacements` but no clause of the WHERE uses it. -/
def getHostDebts (hostId : Nat) (settlementStatus : Option String)
    (transactions : List TransactionRow) (settlements : List SettlementRow) :
    List (TransactionRow × String) :=
  transactions.flatMap fun t =>
    settlements.filterMap fun ts =>
      if t.TransactionGroup == ts.TransactionGroup && t.kind == ts.kind &&
          t.type == "CREDIT" && t.isDebt && t.deletedAt == none &&
          ts.deletedAt == none &&
          (match settlementStatus with
           | some s => ts.status == s
           | none => true) then
        some (t, ts.status)
      else none

/-- The static method `TransactionSettlement.updateTransactionsSettlementStatus(transactions,
status, expenseId)`. `newData` holds `status`, plus `ExpenseId` only when
`expenseId` was supplied (`expenseId !== undefined`, modelled by `Option`).
`TransactionSettlement.update` on the `paranoid` model only touches rows with
`deletedAt IS NULL`; its `Op.or` where-clause matches rows whose
(TransactionGroup, kind) pair equals the pair of some listed transaction. -/
def updateTransactionsSettlementStatus (settlements : List SettlementRow)
    (transactions : List TransactionRow) (status : String)
    (expenseId : Option Nat) : List SettlementRow :=
  settlements.map fun s =>
    if s.deletedAt == none && transactions.any fun t =>
        t.TransactionGroup == s.TransactionGroup && t.kind == s.kind then
      { s with
        status := status
        ExpenseId := match expenseId with
          | some e => some e
          | none => s.ExpenseId }
    else s

/-- The static method `TransactionSettlement.attachStatusesToTransactions(transactions)`.
`findAll` on the paranoid model fetches the live settlements matching the
`Op.or` of the debt (TransactionGroup, kind) pairs. lodash `groupBy` by
`TransactionGroup` followed by `.find` on the group with matching `kind`
selects the first fetched settlement matching both fields, which is how it is
written here. Each debt transaction gets `dataValues.settlementStatus` set to
`settlement?.status || null`; the JS `||` turns a falsy (empty) status string
into null. Non-debt transactions are not touched. -/
def attachStatusesToTransactions (settlements : List SettlementRow)
    (transactions : List TransactionRow) : List TransactionRow :=
  let debts := transactions.filter fun t => t.isDebt
  let fetched := settlements.filter fun s =>
    s.deletedAt == none && debts.any fun t =>
      t.TransactionGroup == s.TransactionGroup && t.kind == s.kind
  transactions.map fun t =>
    if t.isDebt then
      match fetched.find? fun s =>
          s.TransactionGroup == t.TransactionGroup && t.kind == s.kind with
      | some s =>
        let status : Option String := if s.status == "" then none else some s.status
        { t with settlementStatus := some status }
      | none => { t with settlementStatus := some none }
    else t

/-- A collective account as resolved by `fetchAccountWithReference` (the
mutations receive account references and resolve them before any check other
than the login check; here the resolved accounts are taken directly). -/
structure Account where
  id : Nat
deriving DecidableEq

/-- The logged-in user, `req.remoteUser`. `adminOf` lists the ids of the
collectives the user administers; `isAdminOfCollective` lives outside the
files under consideration (and is explicitly out of scope per the spec), so
it is modelled as membership in that list. -/
structure RemoteUser where
  id : Nat
  adminOf : List Nat
deriving DecidableEq

/-- The authorization check `req.remoteUser.isAdminOfCollective(account)`,
modelled abstractly through the `adminOf` list of the user. -/
def isAdminOfCollective (user : RemoteUser) (account : Account) : Bool :=
  user.adminOf.contains account.id

/-- The `ACCOUNTANT` member role constant of `constants/roles`. -/
def MemberRoles.ACCOUNTANT : String := "ACCOUNTANT"

/-- The `ADMIN` member role constant. -/
def MemberRoles.ADMIN : String := "ADMIN"

/-- The `MEMBER` member role constant. -/
def MemberRoles.MEMBER : String := "MEMBER"

/-- A row of the `Members` table: its own primary key `id`, the collective it
belongs to, the member collective/account it links, a role, and a
`deletedAt` timestamp (set by `removeMember` to soft-delete). -/
structure MemberRow where
  id : Nat
  CollectiveId : Nat
  MemberCollectiveId : Nat
  role : String
  deletedAt : Option Nat
deriving DecidableEq

/-- A row of the `MemberInvitations` table, as created by
`MemberInvitation.invite` (outside the files under consideration; modelled as
inserting a row carrying the invitation parameters built by the resolver). -/
structure MemberInvitationRow where
  id : Nat
  CollectiveId : Nat
  MemberCollectiveId : Nat
  CreatedByUserId : Nat
  role : Option String
deriving DecidableEq

/-- The mutable state touched by the member mutations. -/
structure MemberState where
  members : List MemberRow
  invitations : List MemberInvitationRow
  nextId : Nat
  now : Nat
deriving DecidableEq

/-- The errors the member mutations throw. An `Except.error` result models a
thrown error: the resolver aborts before its write, so the caller keeps the
previous state. -/
inductive MutationError where
  | Unauthorized (msg : String)
  | Forbidden (msg : String)
deriving DecidableEq

/-- The `inviteMember` resolver: rejects logged-out requests, resolves both
accounts, rejects non-admins of the target account, invites the member
(modelled as inserting the invitation row), then returns the result of
`findOne` on (CollectiveId, MemberCollectiveId). -/
def inviteMemberResolve (st : MemberState) (remoteUser : Option RemoteUser)
    (memberAccount account : Account) (role : Option String) :
    Except MutationError (MemberState × Option MemberInvitationRow) :=
  match remoteUser with
  | none => Except.error (.Unauthorized "You need to be logged in to invite a member.")
  | some user =>
    if !isAdminOfCollective user account then
      Except.error (.Unauthorized "Only admins can send an invitation.")
    else
      let invitation : MemberInvitationRow :=
        { id := st.nextId
          CollectiveId := account.id
          MemberCollectiveId := memberAccount.id
          CreatedByUserId := user.id
          role := role }
      let st2 : MemberState :=
        { st with invitations := st.invitations ++ [invitation], nextId := st.nextId + 1 }
      Except.ok (st2, st2.invitations.find? fun i =>
        i.CollectiveId == account.id && i.MemberCollectiveId == memberAccount.id)

/-- The `removeMember` resolver: rejects logged-out requests, resolves both
accounts, rejects non-admins of the target account, rejects any role other
than ACCOUNTANT / ADMIN / MEMBER (an omitted role, `none`, is JS `undefined`,
which `includes` also rejects), then runs
`models.Member.update({ deletedAt: new Date() }, { where: { id: memberAccount.id } })`
— note the where-clause compares the Member primary key `id` with the id of
the member ACCOUNT — and returns true. -/
def removeMemberResolve (st : MemberState) (remoteUser : Option RemoteUser)
    (memberAccount account : Account) (role : Option String) :
    Except MutationError (MemberState × Bool) :=
  match remoteUser with
  | none => Except.error (.Unauthorized "You need to be logged in to remove a member.")
  | some user =>
    if !isAdminOfCollective user account then
      Except.error (.Unauthorized "Only admins can remove a member.")
    else if !(match role with
        | some r => [MemberRoles.ACCOUNTANT, MemberRoles.ADMIN, MemberRoles.MEMBER].contains r
        | none => false) then
      Except.error (.Forbidden "You can only remove accountants, admins, or members.")
    else
      let members2 := st.members.map fun m =>
        if m.id = memberAccount.id then { m with deletedAt := some st.now } else m
      Except.ok ({ st with members := members2 }, true)

/-- A live CREDIT debt transaction of host collective 2 (both `CollectiveId`
and `HostCollectiveId` are 2). -/
def c2Transaction : TransactionRow :=
  { id := 1, type := "CREDIT", CollectiveId := 2, HostCollectiveId := 2,
    TransactionGroup := "group-1", kind := "PLATFORM_TIP_DEBT", isDebt := true,
    deletedAt := none }

/-- A live OWED settlement matching `c2Transaction` on (TransactionGroup, kind). -/
def c2Settlement : SettlementRow :=
  { id := 1, TransactionGroup := "group-1", kind := "PLATFORM_TIP_DEBT",
    status := "OWED", ExpenseId := none, deletedAt := none }

/-- A soft-deleted OWED settlement (pair matches `c6Transaction`). -/
def c6Settlement : SettlementRow :=
  { id := 4, TransactionGroup := "group-6", kind := "PLATFORM_TIP_DEBT",
    status := "OWED", ExpenseId := none, deletedAt := some 3 }

/-- A transaction carrying the same (TransactionGroup, kind) pair as
`c6Settlement`. -/
def c6Transaction : TransactionRow :=
  { id := 6, type := "CREDIT", CollectiveId := 2, HostCollectiveId := 2,
    TransactionGroup := "group-6", kind := "PLATFORM_TIP_DEBT", isDebt := true,
    deletedAt := none }

/-- A soft-deleted OWED settlement (pair matches `c9Transaction`). -/
def c9Settlement : SettlementRow :=
  { id := 9, TransactionGroup := "group-9", kind := "PLATFORM_TIP_DEBT",
    status := "OWED", ExpenseId := none, deletedAt := some 8 }

/-- A live debt transaction carrying the same pair as `c9Settlement`. -/
def c9Transaction : TransactionRow :=
  { id := 9, type := "CREDIT", CollectiveId := 3, HostCollectiveId := 3,
    TransactionGroup := "group-9", kind := "PLATFORM_TIP_DEBT", isDebt := true,
    deletedAt := none }

/-- The membership row linking member account 7 to collective 10; its own
primary key is 1. -/
def c7Member : MemberRow :=
  { id := 1, CollectiveId := 10, MemberCollectiveId := 7, role := "MEMBER",
    deletedAt := none }

/-- A member state holding only `c7Member`. -/
def c7State : MemberState :=
  { members := [c7Member], invitations := [], nextId := 2, now := 5 }

/-- An admin of collective 10. -/
def c7Admin : RemoteUser := { id := 3, adminOf := [10] }

/-- A host collective owing a settlement. -/
def c3Collective : CollectiveRow := { id := 2, slug := "host-2" }

/-- A live CREDIT debt transaction of `c3Collective`. -/
def c3Transaction : TransactionRow :=
  { id := 31, type := "CREDIT", CollectiveId := 2, HostCollectiveId := 2,
    TransactionGroup := "group-3", kind := "PLATFORM_TIP_DEBT", isDebt := true,
    deletedAt := none }

/-- A live OWED settlement matching `c3Transaction`. -/
def c3Settlement : SettlementRow :=
  { id := 32, TransactionGroup := "group-3", kind := "PLATFORM_TIP_DEBT",
    status := "OWED", ExpenseId := none, deletedAt := none }

/-- A live settlement whose pair matches `c6Transaction`. -/
def c6LiveSettlement : SettlementRow :=
  { id := 5, TransactionGroup := "group-6", kind := "PLATFORM_TIP_DEBT",
    status := "OWED", ExpenseId := none, deletedAt := none }

/-- A live settlement matching `c9Transaction` on (TransactionGroup, kind). -/
def c9LiveSettlement : SettlementRow :=
  { id := 10, TransactionGroup := "group-9", kind := "PLATFORM_TIP_DEBT",
    status := "OWED", ExpenseId := none, deletedAt := none }

/-- An empty member state. -/
def c8State : MemberState :=
  { members := [], invitations := [], nextId := 1, now := 0 }

/-- A logged-in user who administers no collective. -/
def c8NonAdmin : RemoteUser := { id := 4, adminOf := [] }

/-- A state holding one membership (used to check nothing is deleted). -/
def c10State : MemberState :=
  { members := [{ id := 7, CollectiveId := 10, MemberCollectiveId := 7,
                  role := "HOST", deletedAt := none }],
    invitations := [], nextId := 8, now := 6 }

/-- An admin of collective 10. -/
def c10Admin : RemoteUser := { id := 9, adminOf := [10] }

/-- C2: false as stated. `getHostDebts(1, ...)` returns the debt of host 2:
the WHERE clause of the query never constrains the host (the `hostId`
replacement is passed but unused), so the result is not restricted to the
debts of the requested host. -/
theorem getHostDebts_returns_debts_of_other_hosts :
    getHostDebts 1 none [c2Transaction] [c2Settlement] =
      [(c2Transaction, TransactionSettlementStatus.OWED)] ∧
    c2Transaction.CollectiveId = 2 ∧ c2Transaction.HostCollectiveId = 2 := by
  decide

/-- C6 counterexample: a soft-deleted settlement whose (TransactionGroup,
kind) pair equals that of a listed transaction is NOT updated — the paranoid
`update` only touches rows with `deletedAt IS NULL` — so the update does not
reach exactly the settlements whose pair matches, contrary to the claim. -/
theorem updateTransactionsSettlementStatus_skips_deleted_settlements :
    c6Settlement.TransactionGroup = c6Transaction.TransactionGroup ∧
    c6Settlement.kind = c6Transaction.kind ∧
    updateTransactionsSettlementStatus [c6Settlement] [c6Transaction]
      TransactionSettlementStatus.SETTLED none = [c6Settlement] ∧
    c6Settlement.status ≠ TransactionSettlementStatus.SETTLED := by
  decide

/-- C9 counterexample: a settlement with the same (TransactionGroup, kind) as
the debt transaction exists (status OWED), yet `attachStatusesToTransactions`
sets `settlementStatus` to null because the settlement is soft-deleted and
the paranoid `findAll` does not fetch it — contrary to the claim, which asks
for the settlement status whenever a settlement with the same pair exists. -/
theorem attachStatusesToTransactions_ignores_deleted_settlements :
    c9Settlement.TransactionGroup = c9Transaction.TransactionGroup ∧
    c9Settlement.kind = c9Transaction.kind ∧
    c9Settlement.status = TransactionSettlementStatus.OWED ∧
    attachStatusesToTransactions [c9Settlement] [c9Transaction] =
      [{ c9Transaction with settlementStatus := some none }] := by
  decide

/-- C7: false as stated. A logged-in admin of collective 10 removes member
account 7 with role MEMBER; the resolver returns true but leaves the state
completely unchanged: the `update` where-clause compares the Member primary
key `id` with `memberAccount.id` (7), and the membership linking account 7 to
collective 10 has primary key 1, so it stays live. -/
theorem removeMember_misses_linking_membership :
    removeMemberResolve c7State (some c7Admin) { id := 7 } { id := 10 }
      (some MemberRoles.MEMBER) = Except.ok (c7State, true) ∧
    c7Member ∈ c7State.members ∧
    c7Member.CollectiveId = 10 ∧ c7Member.MemberCollectiveId = 7 ∧
    c7Member.deletedAt = none :=
  ⟨rfl, by decide, rfl, rfl, rfl⟩

/-- C1: for every INVOICED settlement, `revertSettlementForRefund` fails: the
item lookup uses the placeholder predicate `item => false`, so `item` is
always undefined, `item.amount` raises a TypeError (and when the expense
association is empty, `expense.items` already raises), and the enclosing SQL
transaction is rolled back — the expense, its items and the settlement are
left unchanged, and in particular no expense item is ever removed and no
expense amount ever decreases. -/
theorem revertSettlementForRefund_invoiced_always_fails
    (st : LedgerState) (self : SettlementRow) (refundTransaction : TransactionRow)
    (h : self.status = TransactionSettlementStatus.INVOICED) :
    ∃ msg, revertSettlementForRefund st self refundTransaction = Except.error msg := by
  have hOwed : ¬ self.status = TransactionSettlementStatus.OWED := by
    rw [h]; decide
  rw [revertSettlementForRefund, if_neg hOwed, if_pos h]
  cases hfind : st.expenses.find? fun e => self.ExpenseId == some e.id && e.deletedAt == none with
  | none => exact ⟨_, rfl⟩
  | some expense =>
    have hnone : ∀ l : List ExpenseItemRow, l.find? (fun _ => false) = none := by
      intro l
      simp [List.find?_eq_none]
    simp only [hnone]
    exact ⟨_, rfl⟩

/-- Witness for C1 at a concrete INVOICED settlement whose expense and item
exist and are live. -/
theorem revertSettlementForRefund_invoiced_always_fails_witness :
    ∃ msg,
      revertSettlementForRefund
        { settlements := [{ id := 1, TransactionGroup := "group-1",
                            kind := "PLATFORM_TIP_DEBT", status := "INVOICED",
                            ExpenseId := some 11, deletedAt := none }],
          expenses := [{ id := 11, amount := 1000, deletedAt := none }],
          expenseItems := [{ id := 21, ExpenseId := 11, amount := 1000, deletedAt := none }],
          nextId := 2, now := 9 }
        { id := 1, TransactionGroup := "group-1", kind := "PLATFORM_TIP_DEBT",
          status := "INVOICED", ExpenseId := some 11, deletedAt := none }
        c2Transaction = Except.error msg :=
  revertSettlementForRefund_invoiced_always_fails _ _ _ rfl

/-- C4: for every OWED settlement, `revertSettlementForRefund` soft-deletes
exactly that settlement row (by primary key) and does nothing else: expenses
and expense items are untouched, no settlement row is added or removed, rows
with a different id are exactly the original ones, and each row with the
reverted id merely gets its `deletedAt` set. -/
theorem revertSettlementForRefund_owed_spec
    (st : LedgerState) (self : SettlementRow) (refundTransaction : TransactionRow)
    (h : self.status = TransactionSettlementStatus.OWED) :
    ∃ st2, revertSettlementForRefund st self refundTransaction = Except.ok st2 ∧
      st2.expenses = st.expenses ∧
      st2.expenseItems = st.expenseItems ∧
      st2.settlements.length = st.settlements.length ∧
      (∀ s, s ∈ st.settlements → s.id ≠ self.id → s ∈ st2.settlements) ∧
      (∀ s, s ∈ st.settlements → s.id = self.id →
        { s with deletedAt := some st.now } ∈ st2.settlements) ∧
      (∀ s2, s2 ∈ st2.settlements →
        (s2 ∈ st.settlements ∧ s2.id ≠ self.id) ∨
        ∃ s, s ∈ st.settlements ∧ s.id = self.id ∧
          s2 = { s with deletedAt := some st.now }) := by
  rw [revertSettlementForRefund, if_pos h]
  refine ⟨_, rfl, rfl, rfl, List.length_map _ _, ?_, ?_, ?_⟩
  · intro s hs hne
    exact List.mem_map.2 ⟨s, hs, by rw [if_neg hne]⟩
  · intro s hs heq
    exact List.mem_map.2 ⟨s, hs, by rw [if_pos heq]⟩
  · intro s2 hs2
    obtain ⟨s, hs, hfs⟩ := List.mem_map.1 hs2
    by_cases hid : s.id = self.id
    · exact Or.inr ⟨s, hs, hid, by rw [← hfs, if_pos hid]⟩
    · refine Or.inl ⟨?_, ?_⟩
      · rw [← hfs, if_neg hid]; exact hs
      · rw [← hfs, if_neg hid]; exact hid

/-- Witness for C4 at a concrete OWED settlement. -/
theorem revertSettlementForRefund_owed_spec_witness :
    (revertSettlementForRefund
      { settlements := [{ id := 1, TransactionGroup := "group-1",
                          kind := "PLATFORM_TIP_DEBT", status := "OWED",
                          ExpenseId := none, deletedAt := none }],
        expenses := [], expenseItems := [], nextId := 2, now := 9 }
      { id := 1, TransactionGroup := "group-1", kind := "PLATFORM_TIP_DEBT",
        status := "OWED", ExpenseId := none, deletedAt := none }
      c2Transaction).isOk = true := by
  obtain ⟨st2, heq, -⟩ :=
    revertSettlementForRefund_owed_spec
      { settlements := [{ id := 1, TransactionGroup := "group-1",
                          kind := "PLATFORM_TIP_DEBT", status := "OWED",
                          ExpenseId := none, deletedAt := none }],
        expenses := [], expenseItems := [], nextId := 2, now := 9 }
      { id := 1, TransactionGroup := "group-1", kind := "PLATFORM_TIP_DEBT",
        status := "OWED", ExpenseId := none, deletedAt := none }
      c2Transaction rfl
  rw [heq]
  rfl

/-- C5: for every SETTLED settlement, `revertSettlementForRefund` appends
exactly one new settlement row — copying `TransactionGroup` and `kind` from
the refund transaction, with status OWED, live, with no ExpenseId — and
leaves everything else (including the original settlement row, the expenses
and the items) unchanged; for any status other than OWED, INVOICED or
SETTLED it throws before performing any write. -/
theorem revertSettlementForRefund_settled_and_unknown_spec
    (st : LedgerState) (self : SettlementRow) (refundTransaction : TransactionRow) :
    (self.status = TransactionSettlementStatus.SETTLED →
      ∃ row, revertSettlementForRefund st self refundTransaction =
          Except.ok { st with settlements := st.settlements ++ [row],
                              nextId := st.nextId + 1 } ∧
        row.TransactionGroup = refundTransaction.TransactionGroup ∧
        row.kind = refundTransaction.kind ∧
        row.status = TransactionSettlementStatus.OWED ∧
        row.ExpenseId = none ∧ row.deletedAt = none) ∧
    (self.status ≠ TransactionSettlementStatus.OWED →
      self.status ≠ TransactionSettlementStatus.INVOICED →
      self.status ≠ TransactionSettlementStatus.SETTLED →
      ∃ msg, revertSettlementForRefund st self refundTransaction =
        Except.error msg) := by
  constructor
  · intro h
    have hOwed : ¬ self.status = TransactionSettlementStatus.OWED := by
      rw [h]; decide
    have hInvoiced : ¬ self.status = TransactionSettlementStatus.INVOICED := by
      rw [h]; decide
    rw [revertSettlementForRefund, if_neg hOwed, if_neg hInvoiced, if_pos h]
    exact ⟨(createForTransaction st refundTransaction TransactionSettlementStatus.OWED).2, rfl, rfl, rfl, rfl, rfl, rfl⟩
  · intro h1 h2 h3
    rw [revertSettlementForRefund, if_neg h1, if_neg h2, if_neg h3]
    exact ⟨_, rfl⟩

/-- Witness for C5: a concrete SETTLED settlement is reverted successfully,
and a settlement carrying the out-of-enum status PAID makes the method throw. -/
theorem revertSettlementForRefund_settled_and_unknown_spec_witness :
    (revertSettlementForRefund
      { settlements := [{ id := 1, TransactionGroup := "group-1",
                          kind := "PLATFORM_TIP_DEBT", status := "SETTLED",
                          ExpenseId := none, deletedAt := none }],
        expenses := [], expenseItems := [], nextId := 2, now := 9 }
      { id := 1, TransactionGroup := "group-1", kind := "PLATFORM_TIP_DEBT",
        status := "SETTLED", ExpenseId := none, deletedAt := none }
      c2Transaction).isOk = true ∧
    (revertSettlementForRefund
      { settlements := [{ id := 1, TransactionGroup := "group-1",
                          kind := "PLATFORM_TIP_DEBT", status := "PAID",
                          ExpenseId := none, deletedAt := none }],
        expenses := [], expenseItems := [], nextId := 2, now := 9 }
      { id := 1, TransactionGroup := "group-1", kind := "PLATFORM_TIP_DEBT",
        status := "PAID", ExpenseId := none, deletedAt := none }
      c2Transaction).isOk = false := by
  constructor
  · obtain ⟨row, heq, -⟩ :=
      (revertSettlementForRefund_settled_and_unknown_spec
        { settlements := [{ id := 1, TransactionGroup := "group-1",
                            kind := "PLATFORM_TIP_DEBT", status := "SETTLED",
                            ExpenseId := none, deletedAt := none }],
          expenses := [], expenseItems := [], nextId := 2, now := 9 }
        { id := 1, TransactionGroup := "group-1", kind := "PLATFORM_TIP_DEBT",
          status := "SETTLED", ExpenseId := none, deletedAt := none }
        c2Transaction).1 rfl
    rw [heq]
    rfl
  · obtain ⟨msg, heq⟩ :=
      (revertSettlementForRefund_settled_and_unknown_spec
        { settlements := [{ id := 1, TransactionGroup := "group-1",
                            kind := "PLATFORM_TIP_DEBT", status := "PAID",
                            ExpenseId := none, deletedAt := none }],
          expenses := [], expenseItems := [], nextId := 2, now := 9 }
        { id := 1, TransactionGroup := "group-1", kind := "PLATFORM_TIP_DEBT",
          status := "PAID", ExpenseId := none, deletedAt := none }
        c2Transaction).2 (by decide) (by decide) (by decide)
    rw [heq]
    rfl

/-- C3: assuming `id` is a key of the collectives table (`Nodup` ids), the
query returns each collective at most once, and a collective is returned
exactly when it has at least one live CREDIT debt transaction whose
(TransactionGroup, kind) pair matches a live settlement with status OWED. -/
theorem getAccountsWithOwedSettlements_spec
    (collectives : List CollectiveRow) (transactions : List TransactionRow)
    (settlements : List SettlementRow)
    (hkey : (collectives.map CollectiveRow.id).Nodup) :
    ((getAccountsWithOwedSettlements collectives transactions settlements).map
      CollectiveRow.id).Nodup ∧
    ∀ c, c ∈ getAccountsWithOwedSettlements collectives transactions settlements ↔
      (c ∈ collectives ∧ ∃ t, t ∈ transactions ∧ t.CollectiveId = c.id ∧
        t.type = "CREDIT" ∧ t.isDebt = true ∧ t.deletedAt = none ∧
        ∃ ts, ts ∈ settlements ∧ t.TransactionGroup = ts.TransactionGroup ∧
          t.kind = ts.kind ∧ ts.deletedAt = none ∧
          ts.status = TransactionSettlementStatus.OWED) := by
  constructor
  · exact hkey.sublist ((List.filter_sublist _).map _)
  · intro c
    simp only [getAccountsWithOwedSettlements, List.mem_filter, List.any_eq_true,
      Bool.and_eq_true, beq_iff_eq]
    tauto

/-- Witness for C3 at a concrete one-collective table. -/
theorem getAccountsWithOwedSettlements_spec_witness :
    c3Collective ∈ getAccountsWithOwedSettlements [c3Collective] [c3Transaction]
      [c3Settlement] := by
  have h := (getAccountsWithOwedSettlements_spec [c3Collective] [c3Transaction]
    [c3Settlement] (by decide)).2 c3Collective
  exact h.mpr ⟨List.mem_singleton.mpr rfl, c3Transaction,
    List.mem_singleton.mpr rfl, rfl, rfl, rfl, rfl, c3Settlement,
    List.mem_singleton.mpr rfl, rfl, rfl, rfl, rfl⟩

/-- C6 (amended): `updateTransactionsSettlementStatus` updates exactly the
NON-DELETED settlements whose (TransactionGroup, kind) pair equals that of
some listed transaction, setting their status — and their ExpenseId only when
one is supplied — while keeping every other field, every other settlement
(position by position) and the table length unchanged. -/
theorem updateTransactionsSettlementStatus_spec
    (settlements : List SettlementRow) (transactions : List TransactionRow)
    (status : String) (expenseId : Option Nat) (i : Nat) (s : SettlementRow)
    (hs : settlements[i]? = some s) :
    (updateTransactionsSettlementStatus settlements transactions status
      expenseId).length = settlements.length ∧
    (s.deletedAt = none →
      (∃ t, t ∈ transactions ∧ t.TransactionGroup = s.TransactionGroup ∧
        t.kind = s.kind) →
      (expenseId = none →
        (updateTransactionsSettlementStatus settlements transactions status
          expenseId)[i]? = some { s with status := status }) ∧
      (∀ e, expenseId = some e →
        (updateTransactionsSettlementStatus settlements transactions status
          expenseId)[i]? = some { s with status := status, ExpenseId := some e })) ∧
    ((s.deletedAt ≠ none ∨
        ¬ ∃ t, t ∈ transactions ∧ t.TransactionGroup = s.TransactionGroup ∧
          t.kind = s.kind) →
      (updateTransactionsSettlementStatus settlements transactions status
        expenseId)[i]? = some s) := by
  have hcond_iff : ((s.deletedAt == none && transactions.any fun t =>
      t.TransactionGroup == s.TransactionGroup && t.kind == s.kind) = true) ↔
      (s.deletedAt = none ∧ ∃ t, t ∈ transactions ∧
        t.TransactionGroup = s.TransactionGroup ∧ t.kind = s.kind) := by
    simp [List.any_eq_true]
  refine ⟨?_, ?_, ?_⟩
  · simp [updateTransactionsSettlementStatus]
  · intro hdel hex
    have hc := hcond_iff.mpr ⟨hdel, hex⟩
    constructor
    · intro he
      subst he
      simp only [updateTransactionsSettlementStatus, List.getElem?_map, hs,
        Option.map_some']
      rw [if_pos hc]
    · intro e he
      subst he
      simp only [updateTransactionsSettlementStatus, List.getElem?_map, hs,
        Option.map_some']
      rw [if_pos hc]
  · intro h
    have hc : (s.deletedAt == none && transactions.any fun t =>
        t.TransactionGroup == s.TransactionGroup && t.kind == s.kind) = false := by
      cases hh : (s.deletedAt == none && transactions.any fun t =>
          t.TransactionGroup == s.TransactionGroup && t.kind == s.kind) with
      | false => rfl
      | true =>
        obtain ⟨h1, h2⟩ := hcond_iff.mp hh
        cases h with
        | inl hd => exact absurd h1 hd
        | inr he => exact absurd h2 he
    simp only [updateTransactionsSettlementStatus, List.getElem?_map, hs,
      Option.map_some']
    rw [if_neg (by simp [hc])]

/-- Witness for C6 at a concrete one-row table with a supplied expense id. -/
theorem updateTransactionsSettlementStatus_spec_witness :
    (updateTransactionsSettlementStatus [c6LiveSettlement] [c6Transaction]
      "INVOICED" (some 5))[0]? =
      some { c6LiveSettlement with status := "INVOICED", ExpenseId := some 5 } := by
  have h := updateTransactionsSettlementStatus_spec [c6LiveSettlement]
    [c6Transaction] "INVOICED" (some 5) 0 c6LiveSettlement rfl
  exact (h.2.1 rfl ⟨c6Transaction, List.mem_singleton.mpr rfl, rfl, rfl⟩).2 5 rfl

/-- C9 (amended): assuming every settlement status is one of the three enum
values (the `status` column is a non-null ENUM), `attachStatusesToTransactions`
sets the `settlementStatus` field on exactly the debt transactions — to the
status of a NON-DELETED settlement with the same (TransactionGroup, kind)
when one exists, and to null otherwise — and returns every non-debt
transaction unmodified, preserving the length and order of the list. -/
theorem attachStatusesToTransactions_spec
    (settlements : List SettlementRow) (transactions : List TransactionRow)
    (henum : ∀ s, s ∈ settlements →
      s.status = TransactionSettlementStatus.OWED ∨
      s.status = TransactionSettlementStatus.INVOICED ∨
      s.status = TransactionSettlementStatus.SETTLED)
    (i : Nat) (t : TransactionRow) (ht : transactions[i]? = some t) :
    (attachStatusesToTransactions settlements transactions).length =
      transactions.length ∧
    (t.isDebt = false →
      (attachStatusesToTransactions settlements transactions)[i]? = some t) ∧
    (t.isDebt = true →
      ((∃ s, s ∈ settlements ∧ s.deletedAt = none ∧
          s.TransactionGroup = t.TransactionGroup ∧ s.kind = t.kind) →
        ∃ s, s ∈ settlements ∧ s.deletedAt = none ∧
          s.TransactionGroup = t.TransactionGroup ∧ s.kind = t.kind ∧
          (attachStatusesToTransactions settlements transactions)[i]? =
            some { t with settlementStatus := some (some s.status) }) ∧
      ((¬ ∃ s, s ∈ settlements ∧ s.deletedAt = none ∧
          s.TransactionGroup = t.TransactionGroup ∧ s.kind = t.kind) →
        (attachStatusesToTransactions settlements transactions)[i]? =
          some { t with settlementStatus := some none })) := by
  have htmem : t ∈ transactions := List.getElem?_mem ht
  refine ⟨?_, ?_, ?_⟩
  · simp [attachStatusesToTransactions]
  · intro hfalse
    simp only [attachStatusesToTransactions, List.getElem?_map, ht,
      Option.map_some']
    rw [if_neg (by simp [hfalse])]
  · intro hdebt
    simp only [attachStatusesToTransactions, List.getElem?_map, ht,
      Option.map_some']
    rw [if_pos hdebt]
    cases hf : (settlements.filter fun s =>
        s.deletedAt == none && (transactions.filter fun t2 => t2.isDebt).any
          fun t2 => t2.TransactionGroup == s.TransactionGroup &&
            t2.kind == s.kind).find? fun s =>
        s.TransactionGroup == t.TransactionGroup && t.kind == s.kind with
    | some s0 =>
      have hmem0 : s0 ∈ settlements.filter fun s =>
          s.deletedAt == none && (transactions.filter fun t2 => t2.isDebt).any
            fun t2 => t2.TransactionGroup == s.TransactionGroup &&
              t2.kind == s.kind := List.mem_of_find?_eq_some hf
      have hp := List.find?_some hf
      rw [Bool.and_eq_true, beq_iff_eq, beq_iff_eq] at hp
      obtain ⟨hmem1, hq⟩ := List.mem_filter.mp hmem0
      rw [Bool.and_eq_true, beq_iff_eq] at hq
      have hdel0 : s0.deletedAt = none := hq.1
      have hne : ¬ s0.status = "" := by
        rcases henum s0 hmem1 with h | h | h <;> rw [h] <;> decide
      constructor
      · intro _
        refine ⟨s0, hmem1, hdel0, hp.1, hp.2.symm, ?_⟩
        simp [beq_eq_false_iff_ne.mpr hne]
      · intro hnone
        exact absurd ⟨s0, hmem1, hdel0, hp.1, hp.2.symm⟩ hnone
    | none =>
      have hnotfound := List.find?_eq_none.mp hf
      constructor
      · intro hex
        obtain ⟨s, hmem, hdel, hTG, hkind⟩ := hex
        have hfet : s ∈ settlements.filter fun s =>
            s.deletedAt == none && (transactions.filter fun t2 => t2.isDebt).any
              fun t2 => t2.TransactionGroup == s.TransactionGroup &&
                t2.kind == s.kind := by
          refine List.mem_filter.mpr ⟨hmem, ?_⟩
          rw [Bool.and_eq_true, beq_iff_eq]
          refine ⟨hdel, ?_⟩
          rw [List.any_eq_true]
          refine ⟨t, List.mem_filter.mpr ⟨htmem, hdebt⟩, ?_⟩
          rw [Bool.and_eq_true, beq_iff_eq, beq_iff_eq]
          exact ⟨hTG.symm, hkind.symm⟩
        have := hnotfound s hfet
        rw [Bool.and_eq_true, beq_iff_eq, beq_iff_eq] at this
        exact absurd ⟨hTG, hkind.symm⟩ this
      · intro _
        rfl

/-- Witness for C9 (amended) at a concrete one-debt list. -/
theorem attachStatusesToTransactions_spec_witness :
    ∃ s, s ∈ [c9LiveSettlement] ∧ s.deletedAt = none ∧
      s.TransactionGroup = c9Transaction.TransactionGroup ∧
      s.kind = c9Transaction.kind ∧
      (attachStatusesToTransactions [c9LiveSettlement] [c9Transaction])[0]? =
        some { c9Transaction with settlementStatus := some (some s.status) } := by
  have h := attachStatusesToTransactions_spec [c9LiveSettlement] [c9Transaction]
    (by intro s hs; rw [List.mem_singleton.mp hs]; exact Or.inl rfl)
    0 c9Transaction rfl
  exact (h.2.2 rfl).1
    ⟨c9LiveSettlement, List.mem_singleton.mpr rfl, rfl, rfl, rfl⟩

/-- C8: whenever the request has no logged-in user, or the logged-in user is
not an admin of the target collective account, both `inviteMember` and
`removeMember` throw Unauthorized. The thrown error carries no new state —
the resolvers abort before their write — so no invitation is created and no
member is deleted. -/
theorem memberMutations_unauthorized_spec
    (st : MemberState) (remoteUser : Option RemoteUser)
    (memberAccount account : Account) (role : Option String)
    (h : remoteUser = none ∨
      ∃ u, remoteUser = some u ∧ isAdminOfCollective u account = false) :
    (∃ msg, inviteMemberResolve st remoteUser memberAccount account role =
      Except.error (MutationError.Unauthorized msg)) ∧
    (∃ msg, removeMemberResolve st remoteUser memberAccount account role =
      Except.error (MutationError.Unauthorized msg)) := by
  rcases h with rfl | ⟨u, rfl, hadm⟩
  · exact ⟨⟨_, rfl⟩, ⟨_, rfl⟩⟩
  · constructor
    · refine ⟨"Only admins can send an invitation.", ?_⟩
      simp [inviteMemberResolve, hadm]
    · refine ⟨"Only admins can remove a member.", ?_⟩
      simp [removeMemberResolve, hadm]

/-- Witness for C8: a logged-out invite and a non-admin removal both fail. -/
theorem memberMutations_unauthorized_spec_witness :
    (inviteMemberResolve c8State none { id := 7 } { id := 10 } none).isOk = false ∧
    (removeMemberResolve c8State (some c8NonAdmin) { id := 7 } { id := 10 }
      (some "MEMBER")).isOk = false := by
  constructor
  · obtain ⟨msg, heq⟩ := (memberMutations_unauthorized_spec c8State none
      { id := 7 } { id := 10 } none (Or.inl rfl)).1
    rw [heq]
    rfl
  · obtain ⟨msg, heq⟩ := (memberMutations_unauthorized_spec c8State
      (some c8NonAdmin) { id := 7 } { id := 10 } (some "MEMBER")
      (Or.inr ⟨c8NonAdmin, rfl, by decide⟩)).2
    rw [heq]
    rfl

/-- C10: when the role argument is omitted (`none`, JS `undefined`) or is any
value other than ACCOUNTANT, ADMIN or MEMBER, `removeMember` always throws —
so nothing is deleted — and when the caller is a logged-in admin of the
collective account the thrown error is Forbidden. -/
theorem removeMember_invalid_role_spec
    (st : MemberState) (remoteUser : Option RemoteUser)
    (memberAccount account : Account) (role : Option String)
    (hrole : ∀ r, role = some r →
      r ≠ MemberRoles.ACCOUNTANT ∧ r ≠ MemberRoles.ADMIN ∧ r ≠ MemberRoles.MEMBER) :
    (∃ e, removeMemberResolve st remoteUser memberAccount account role =
      Except.error e) ∧
    (∀ u, remoteUser = some u → isAdminOfCollective u account = true →
      ∃ msg, removeMemberResolve st remoteUser memberAccount account role =
        Except.error (MutationError.Forbidden msg)) := by
  cases remoteUser with
  | none => exact ⟨⟨_, rfl⟩, fun u hu => by cases hu⟩
  | some u =>
    by_cases hadm : isAdminOfCollective u account = true
    · have heq : removeMemberResolve st (some u) memberAccount account role =
          Except.error (MutationError.Forbidden
            "You can only remove accountants, admins, or members.") := by
        cases role with
        | none => simp [removeMemberResolve, hadm]
        | some r =>
          obtain ⟨h1, h2, h3⟩ := hrole r rfl
          simp [removeMemberResolve, hadm, h1, h2, h3]
      refine ⟨⟨_, heq⟩, fun u2 hu2 _ => ?_⟩
      injection hu2 with h2
      subst h2
      exact ⟨_, heq⟩
    · have hadm2 : isAdminOfCollective u account = false := by
        cases hh : isAdminOfCollective u account
        · rfl
        · exact absurd hh hadm
      have heq : removeMemberResolve st (some u) memberAccount account role =
          Except.error (MutationError.Unauthorized "Only admins can remove a member.") := by
        simp [removeMemberResolve, hadm2]
      refine ⟨⟨_, heq⟩, fun u2 hu2 hadm3 => ?_⟩
      injection hu2 with h2
      subst h2
      exact absurd hadm3 hadm

/-- Witness for C10: a logged-in admin passing role HOST gets Forbidden. -/
theorem removeMember_invalid_role_spec_witness :
    ∃ msg, removeMemberResolve c10State (some c10Admin) { id := 7 } { id := 10 }
      (some "HOST") = Except.error (MutationError.Forbidden msg) := by
  have h := removeMember_invalid_role_spec c10State (some c10Admin)
    { id := 7 } { id := 10 } (some "HOST")
    (by intro r hr; injection hr with h2; subst h2; exact ⟨by decide, by decide, by decide⟩)
  exact h.2 c10Admin rfl (by decide)
